import Mathlib

/-!
Verification development for the notification subsystem of AstroTuxLauncher
(`src/utils/interface.py`).

The embedding covers, from the source file:
- the `EventType` enumeration (lines 151-159),
- `safeformat` (lines 179-190), a shallow embedding of Python's
  `str.format_map` applied to a `SafeDict` whose `__missing__` returns the
  placeholder verbatim,
- `DEFAULT_EVENT_FORMATS` (lines 192-201),
- `NotificationHandler.send_event` (lines 203-230),
- `NotificationManager` (lines 161-177),
- the worker-thread/queue discipline of
  `QueuedNotificationHandler.NotificationThread` (lines 237-261),
- the Python default-argument evaluation of the two constructors
  (lines 208, 263), modelled with an explicit object store.

Python dicts are modelled as association lists (first match wins on lookup,
assignment replaces in place or appends), Python sets as lists with
membership, side effects as explicit return values (the list of sink
invocations a call performs), and exceptions as `Except`.
-/

/-- Keyword-argument mapping passed to `send_event` and `safeformat`
(a Python `dict` of string keys; values are taken to be strings). -/
abbrev Params := List (String × String)

/-- Python `dict` lookup (`kwargs[key]` returning `None`-like on absence). -/
def Params.get? : Params → String → Option String
  | [], _ => none
  | (k0, v0) :: rest, k => if k0 = k then some v0 else Params.get? rest k

/-- Python `dict` assignment `params[key] = value`: replaces the binding if
the key is present, appends it otherwise. -/
def Params.set : Params → String → String → Params
  | [], k, v => [(k, v)]
  | (k0, v0) :: rest, k, v =>
    if k0 = k then (k, v) :: rest else (k0, v0) :: Params.set rest k v

/-- The `EventType` enumeration (interface.py lines 151-159). -/
inductive EventType where
  | MESSAGE
  | START
  | REGISTERED
  | SHUTDOWN
  | CRASH
  | PLAYER_JOIN
  | PLAYER_LEAVE
  | COMMAND
  deriving DecidableEq

/-- The `.value` string of each enum member (interface.py lines 151-159). -/
def EventType.value : EventType → String
  | .MESSAGE => "message"
  | .START => "start"
  | .REGISTERED => "registered"
  | .SHUTDOWN => "shutdown"
  | .CRASH => "crash"
  | .PLAYER_JOIN => "player_join"
  | .PLAYER_LEAVE => "player_leave"
  | .COMMAND => "command"

/-- `DEFAULT_EVENT_FORMATS` (interface.py lines 192-201), the default
per-kind message templates, as an association list in source order. -/
def DEFAULT_EVENT_FORMATS : List (EventType × String) :=
  [ (EventType.MESSAGE, "[{name}] {message}"),
    (EventType.START, "[{name}] Server started!"),
    (EventType.REGISTERED, "[{name}] Server registered with Playfab!"),
    (EventType.SHUTDOWN, "[{name}] Server shutdown!"),
    (EventType.CRASH, "[{name}] Server crashed!"),
    (EventType.PLAYER_JOIN, "[{name}] Player \x27{player}\x27 joined the game"),
    (EventType.PLAYER_LEAVE, "[{name}] Player \x27{player}\x27 left the game"),
    (EventType.COMMAND, "[{name}] Command executed: {command}") ]

/-- Outcomes of Python `str.format_map` that end in an exception, plus a
marker for format-string features outside the modelled fragment.
`singleRBrace` is CPython's `ValueError: Single '}' encountered`;
`unterminatedField` covers the `ValueError`s for a `\x7b` with no closing
`\x7d`; `positionalField` is the `IndexError` raised for automatic or
integer-indexed fields, since `format_map` receives no positional
arguments; `unsupported` marks conversions (`!r` etc.), format specs
(`:...`), attribute/index access and nested fields, which the embedding
does not model (CPython would process, and sometimes reject, them). -/
inductive FmtError where
  | singleRBrace
  | unterminatedField
  | positionalField
  | unsupported
  deriving DecidableEq

/-- Resolution of one replacement field with the collected field name:
empty or all-digit names are positional (an error under `format_map` with
no positional arguments); names with attribute/index access are outside
the modelled fragment; otherwise the key is looked up in the mapping, and
a missing key yields the placeholder verbatim, braces included — this is
exactly `SafeDict.__missing__` (interface.py lines 184-186). -/
def resolveField (acc : List Char) (p : Params) : Except FmtError (List Char) :=
  if acc.isEmpty then .error .positionalField
  else if acc.all (fun c => c.isDigit) then .error .positionalField
  else if acc.any (fun c => c = '.' || c = '[') then .error .unsupported
  else
    match Params.get? p (String.mk acc) with
    | some v => .ok v.data
    | none => .ok ('\x7b' :: (acc ++ ['\x7d']))

/-- Character scanner of Python's format-string parser, restricted to the
fragment used by this module: literal text, doubled-brace escapes and
simple keyword replacement fields. `mode = none` is literal mode;
`mode = some acc` is inside a replacement field with `acc` the name
collected so far. -/
def fmtGo : List Char → Option (List Char) → Params → Except FmtError (List Char)
  | [], none, _ => .ok []
  | [], some _, _ => .error .unterminatedField
  | [c], none, p =>
    if c = '\x7b' then .error .unterminatedField
    else if c = '\x7d' then .error .singleRBrace
    else (fmtGo [] none p).map (fun t => c :: t)
  | c1 :: c2 :: rest, none, p =>
    if c1 = '\x7b' then
      if c2 = '\x7b' then (fmtGo rest none p).map (fun t => '\x7b' :: t)
      else fmtGo (c2 :: rest) (some []) p
    else if c1 = '\x7d' then
      if c2 = '\x7d' then (fmtGo rest none p).map (fun t => '\x7d' :: t)
      else .error .singleRBrace
    else (fmtGo (c2 :: rest) none p).map (fun t => c1 :: t)
  | c :: rest, some acc, p =>
    if c = '\x7d' then
      match resolveField acc p with
      | .error e => .error e
      | .ok v => (fmtGo rest none p).map (fun t => v ++ t)
    else if c = '!' ∨ c = ':' ∨ c = '\x7b' then .error .unsupported
    else fmtGo rest (some (acc ++ [c])) p

/-- `safeformat` (interface.py lines 179-190): formats the template against
the mapping via `str.format_map` over a `SafeDict`, keeping missing
replacements unformatted. -/
def safeformat (s : String) (p : Params) : Except FmtError String :=
  (fmtGo s.data none p).map String.mk

deriving instance DecidableEq for Except

/-- Arguments of one `_send_message(event_type, message)` sink invocation
(interface.py lines 222, 224-230). -/
abbrev SinkCall := EventType × String

/-- Exceptions that can escape `NotificationHandler.send_event`:
`templateMissing` is the `KeyError` from `self.formats[event_type]`
(line 220), `fmt e` an exception raised inside `safeformat`. -/
inductive SendError where
  | templateMissing
  | fmt (e : FmtError)
  deriving DecidableEq

/-- Lookup `self.formats[event_type]` on the template dict, `none` standing
for the `KeyError` case. -/
def lookupFormat : List (EventType × String) → EventType → Option String
  | [], _ => none
  | (k, v) :: rest, et => if k = et then some v else lookupFormat rest et

/-- The `set([e for e in EventType])` default whitelist value: every member
of the enumeration (interface.py lines 208, 263). -/
def defaultWhitelist : List EventType :=
  [.MESSAGE, .START, .REGISTERED, .SHUTDOWN, .CRASH,
   .PLAYER_JOIN, .PLAYER_LEAVE, .COMMAND]

/-- The state a `NotificationHandler` holds after `__init__`
(interface.py lines 208-211): a name, a whitelist of event kinds and a
template map. -/
structure NotificationHandler where
  name : String
  whitelist : List EventType
  formats : List (EventType × String)
  deriving DecidableEq

/-- `NotificationHandler.send_event` (interface.py lines 213-222), with the
side effect made explicit: the result is the list of `_send_message` sink
invocations the call performs (at most one). If `event_type` is not in the
whitelist the method falls through with no effect; otherwise it overwrites
`params["name"]` with the handler's name, looks the template up (a missing
entry raises `KeyError`), formats it with `safeformat`, and invokes
`_send_message(event_type, message)` once. The handler record itself is
never modified (only the local `params` dict is). -/
def NotificationHandler.send_event (h : NotificationHandler)
    (event_type : EventType) (params : Params) :
    Except SendError (List SinkCall) :=
  if event_type ∈ h.whitelist then
    let params2 := Params.set params "name" h.name
    match lookupFormat h.formats event_type with
    | none => .error .templateMissing
    | some t =>
      match safeformat t params2 with
      | .ok message => .ok [(event_type, message)]
      | .error e => .error (.fmt e)
  else .ok []

/-- Truth of "this `send_event` call returned normally". -/
def sendOk : Except SendError (List SinkCall) → Bool
  | .ok _ => true
  | .error _ => false

/-- Sink invocations actually performed by a `send_event` result. -/
def callsOf : Except SendError (List SinkCall) → List SinkCall
  | .ok cs => cs
  | .error _ => []

/-- `NotificationManager` state (interface.py lines 161-165): the ordered
list of registered handlers. -/
structure NotificationManager where
  handlers : List NotificationHandler
  deriving DecidableEq

/-- `NotificationManager.__init__` (interface.py lines 164-165). -/
def NotificationManager.init : NotificationManager := ⟨[]⟩

/-- `NotificationManager.add_handler` (interface.py lines 167-169):
`self.handlers.append(handler)`. -/
def NotificationManager.add_handler (m : NotificationManager)
    (h : NotificationHandler) : NotificationManager :=
  ⟨m.handlers ++ [h]⟩

/-- `NotificationManager.clear` (interface.py lines 171-172):
`self.handlers.clear()`. -/
def NotificationManager.clear (_ : NotificationManager) : NotificationManager :=
  ⟨[]⟩

/-- Outcome of one `NotificationManager.send_event` broadcast: which
handlers had `send_event` invoked on them (in order), the sink invocations
performed, and the exception that escaped to the manager's caller, if any. -/
structure BroadcastResult where
  visited : List NotificationHandler
  calls : List SinkCall
  error : Option SendError
  deriving DecidableEq

/-- The `for handler in self.handlers: handler.send_event(...)` loop of
`NotificationManager.send_event` (interface.py lines 174-177). There is no
`try` in the loop: the first exception aborts the iteration and propagates;
handlers after the failing one are never reached. -/
def broadcastGo : List NotificationHandler → EventType → Params → BroadcastResult
  | [], _, _ => ⟨[], [], none⟩
  | h :: rest, et, p =>
    match NotificationHandler.send_event h et p with
    | .ok cs =>
      let r := broadcastGo rest et p
      ⟨h :: r.visited, cs ++ r.calls, r.error⟩
    | .error e => ⟨[h], [], some e⟩

/-- `NotificationManager.send_event` (interface.py lines 174-177). -/
def NotificationManager.send_event (m : NotificationManager)
    (et : EventType) (p : Params) : BroadcastResult :=
  broadcastGo m.handlers et p

/-- State of a `QueuedNotificationHandler.NotificationThread`
(interface.py lines 237-261): the FIFO `event_queue` contents and the
sequence of `self.callback(*event)` deliveries performed so far, in order. -/
structure WorkerState where
  pending : List SinkCall
  delivered : List SinkCall
  deriving DecidableEq

/-- Atomic transitions of the queue/worker system: `add_event e` is a
producer running `NotificationThread.add_event` (lines 247-250,
`Queue.put` appends at the tail); `runIter` is one iteration of the single
worker's `run` loop (lines 252-261): if the queue is non-empty it dequeues
the head and delivers it via the callback, otherwise it just waits on
`wakeup_event` and changes nothing. Exactly one worker thread exists per
handler, so deliveries are these atomic, non-overlapping steps in a single
interleaving; `Queue` is safe for concurrent producers, so concurrent
`add_event` calls linearize into the step sequence in their
enqueued-before order. -/
inductive WStep where
  | add_event (e : SinkCall)
  | runIter

/-- One step of the queue/worker transition system. -/
def wApply (s : WorkerState) : WStep → WorkerState
  | .add_event e => ⟨s.pending ++ [e], s.delivered⟩
  | .runIter =>
    match s.pending with
    | [] => s
    | e :: rest => ⟨rest, s.delivered ++ [e]⟩

/-- Execution of a step sequence from the initial state (empty queue,
nothing delivered). -/
def wExec (steps : List WStep) : WorkerState :=
  steps.foldl wApply ⟨[], []⟩

/-- The events enqueued by a step sequence, in enqueued-before order. -/
def enqueuedOf (steps : List WStep) : List SinkCall :=
  steps.filterMap (fun st =>
    match st with
    | .add_event e => some e
    | .runIter => none)

/-- Result of the worker loop draining a queue snapshot with a fallible
delivery callback, modelling `NotificationThread.run` (interface.py lines
252-261), which wraps `self.callback(*event)` in no `try`/`except`:
`attempted` are the deliveries invoked in order, `undelivered` the items
still queued when the loop stopped, `raised` the exception that escaped
`run` (terminating the thread), if any. -/
structure DrainResult where
  attempted : List SinkCall
  undelivered : List SinkCall
  raised : Option String
  deriving DecidableEq

/-- The `run` loop of `NotificationThread` over a queue snapshot with a
delivery callback that may raise: each iteration dequeues the head and
invokes the callback; an exception propagates out of `run` (there is no
handler around the call), so the loop stops and the rest of the queue is
never delivered. -/
def workerRun (cb : SinkCall → Except String Unit) :
    List SinkCall → DrainResult
  | [] => ⟨[], [], none⟩
  | e :: rest =>
    match cb e with
    | .ok _ =>
      let r := workerRun cb rest
      ⟨e :: r.attempted, r.undelivered, r.raised⟩
    | .error msg => ⟨[e], rest, some msg⟩

/-- A delivery callback (`_handle_message` override) that raises on one
specific message and succeeds on every other. -/
def failingOn (bad : String) : SinkCall → Except String Unit :=
  fun c => if c.2 = bad then .error "delivery failed" else .ok ()

/-- Heap of Python objects relevant to the default-argument aliasing
question: the `set` objects and `dict` objects reachable from handler
attributes, addressed by index. -/
structure PyStore where
  setCells : List (List EventType)
  dictCells : List (List (EventType × String))
  deriving DecidableEq

/-- A handler object as Python stores it: `self.whitelist` and
`self.formats` are references to heap objects, not copies
(interface.py lines 208-211). -/
structure HandlerObj where
  name : String
  whitelistRef : Nat
  formatsRef : Nat
  deriving DecidableEq

/-- The heap after the module body runs: Python evaluates default-argument
expressions once, when each `def` is executed. `DEFAULT_EVENT_FORMATS`
(lines 192-201) is one dict object (cell 0); the
`set([e for e in EventType])` default of `NotificationHandler.__init__`
(line 208) is one set object (cell 0); the syntactically separate
`set([e for e in EventType])` default of
`QueuedNotificationHandler.__init__` (line 263) is evaluated independently
when that `def` runs, producing a second, distinct set object (cell 1).
Both `event_formats` defaults are the name `DEFAULT_EVENT_FORMATS` and so
the same dict object. -/
def initStore : PyStore := ⟨[defaultWhitelist, defaultWhitelist], [DEFAULT_EVENT_FORMATS]⟩

/-- A `NotificationHandler()` constructed with all defaults: its attributes
alias the default objects of `NotificationHandler.__init__`. -/
def mkDefaultNH : HandlerObj := ⟨"Server", 0, 0⟩

/-- A `QueuedNotificationHandler()` constructed with all defaults:
`__init__` passes its own default objects to `super().__init__`
(interface.py lines 263-264), so its attributes alias the defaults of
`QueuedNotificationHandler.__init__`. -/
def mkDefaultQNH : HandlerObj := ⟨"Server", 1, 0⟩

/-- Reading `handler.whitelist` through the heap. -/
def readWhitelist (st : PyStore) (h : HandlerObj) : List EventType :=
  st.setCells.getD h.whitelistRef []

/-- Reading `handler.formats` through the heap. -/
def readFormats (st : PyStore) (h : HandlerObj) : List (EventType × String) :=
  st.dictCells.getD h.formatsRef []

/-- Mutating the set object `handler.whitelist` refers to, in place. -/
def mutateWhitelist (st : PyStore) (h : HandlerObj)
    (f : List EventType → List EventType) : PyStore :=
  ⟨st.setCells.set h.whitelistRef (f (readWhitelist st h)), st.dictCells⟩

/-- Mutating the dict object `handler.formats` refers to, in place. -/
def mutateFormats (st : PyStore) (h : HandlerObj)
    (f : List (EventType × String) → List (EventType × String)) : PyStore :=
  ⟨st.setCells, st.dictCells.set h.formatsRef (f (readFormats st h))⟩

/-- `NotificationHandler(name="Box")` with default whitelist and formats,
the handler of the specification's worked example. -/
def boxHandler : NotificationHandler :=
  ⟨"Box", defaultWhitelist, DEFAULT_EVENT_FORMATS⟩

/-- A handler whose template for MESSAGE is the malformed string `\x7b`. -/
def brokenTemplateHandler : NotificationHandler :=
  ⟨"Box", [EventType.MESSAGE], [(EventType.MESSAGE, "\x7b")]⟩

/-- A default-configured handler named A. -/
def handlerA : NotificationHandler :=
  ⟨"A", defaultWhitelist, DEFAULT_EVENT_FORMATS⟩

/-- A default-configured handler named B. -/
def handlerB : NotificationHandler :=
  ⟨"B", defaultWhitelist, DEFAULT_EVENT_FORMATS⟩

/-- A handler that whitelists everything but has an empty template map, so
every `send_event` hits the `KeyError` path. -/
def noTemplateHandler : NotificationHandler := ⟨"Bad", defaultWhitelist, []⟩

lemma wExec_aux (steps : List WStep) (s : WorkerState) :
    (steps.foldl wApply s).delivered ++ (steps.foldl wApply s).pending
      = s.delivered ++ s.pending ++ enqueuedOf steps := by
  induction steps generalizing s with
  | nil => simp [enqueuedOf]
  | cons st rest ih =>
    rw [List.foldl_cons]
    cases st with
    | add_event e =>
      rw [ih (wApply s (WStep.add_event e))]
      simp [wApply, enqueuedOf]
    | runIter =>
      rw [ih (wApply s WStep.runIter)]
      cases hp : s.pending with
      | nil => simp [wApply, hp, enqueuedOf]
      | cons e tl => simp [wApply, hp, enqueuedOf]

lemma params_get_set_self (p : Params) (k v : String) :
    Params.get? (Params.set p k v) k = some v := by
  induction p with
  | nil => simp [Params.set, Params.get?]
  | cons kv rest ih =>
    obtain ⟨k0, v0⟩ := kv
    by_cases hk : k0 = k
    · simp [Params.set, Params.get?, hk]
    · simp [Params.set, Params.get?, hk, ih]

lemma broadcastGo_all_ok (hs : List NotificationHandler) (et : EventType)
    (p : Params) (hok : ∀ h ∈ hs, sendOk (NotificationHandler.send_event h et p) = true) :
    (broadcastGo hs et p).visited = hs ∧
    (broadcastGo hs et p).error = none ∧
    (broadcastGo hs et p).calls
      = (hs.map (fun h => callsOf (NotificationHandler.send_event h et p))).flatten := by
  induction hs with
  | nil => simp [broadcastGo]
  | cons h rest ih =>
    have hh := hok h (List.mem_cons_self h rest)
    cases hx : NotificationHandler.send_event h et p with
    | error e => rw [hx] at hh; simp [sendOk] at hh
    | ok cs =>
      have hrest := ih (fun h2 hmem => hok h2 (List.mem_cons_of_mem h hmem))
      simp [broadcastGo, hx, hrest.1, hrest.2.1, hrest.2.2, callsOf]

lemma broadcastGo_error (pre : List NotificationHandler)
    (h : NotificationHandler) (post : List NotificationHandler)
    (et : EventType) (p : Params) (e : SendError)
    (hok : ∀ h2 ∈ pre, sendOk (NotificationHandler.send_event h2 et p) = true)
    (herr : NotificationHandler.send_event h et p = .error e) :
    (broadcastGo (pre ++ h :: post) et p).visited = pre ++ [h] ∧
    (broadcastGo (pre ++ h :: post) et p).error = some e ∧
    (broadcastGo (pre ++ h :: post) et p).calls
      = (pre.map (fun h2 => callsOf (NotificationHandler.send_event h2 et p))).flatten := by
  induction pre with
  | nil => simp [broadcastGo, herr]
  | cons h0 rest ih =>
    have hh := hok h0 (List.mem_cons_self h0 rest)
    cases hx : NotificationHandler.send_event h0 et p with
    | error e0 => rw [hx] at hh; simp [sendOk] at hh
    | ok cs =>
      have hrest := ih (fun h2 hmem => hok h2 (List.mem_cons_of_mem h0 hmem))
      simp [broadcastGo, hx, hrest.1, hrest.2.1, hrest.2.2, callsOf]

/-- C1: for a single QueuedNotificationHandler the worker's deliveries are
strictly FIFO: in every linearized execution of enqueues (`add_event`) and
worker-loop iterations, the sequence of events delivered so far is exactly
the first `n` events in enqueued-before order (so events enqueued E1, E2,
E3 are delivered E1, E2, E3), and each step of the unique worker performs
at most one delivery, appended at the end — deliveries are atomic steps of
one thread, so no two overlap. -/
theorem c1_queued_fifo :
    (∀ steps : List WStep,
      (wExec steps).delivered ++ (wExec steps).pending = enqueuedOf steps ∧
      (wExec steps).delivered
        = (enqueuedOf steps).take (wExec steps).delivered.length) ∧
    ∀ (s : WorkerState) (st : WStep),
      (wApply s st).delivered = s.delivered ∨
      ∃ e, (wApply s st).delivered = s.delivered ++ [e] := by
  constructor
  · intro steps
    have h1 : (wExec steps).delivered ++ (wExec steps).pending = enqueuedOf steps := by
      have h := wExec_aux steps ⟨[], []⟩
      simpa [wExec] using h
    refine ⟨h1, ?_⟩
    rw [← h1]
    exact (List.take_left _ _).symm
  · intro s st
    cases st with
    | add_event e => left; rfl
    | runIter =>
      cases hp : s.pending with
      | nil => left; simp [wApply, hp]
      | cons e tl => right; exact ⟨e, by simp [wApply, hp]⟩

/-- C2: evaluation of the embedded `NotificationThread.run` loop at the
failing input. The loop body invokes `self.callback(*event)` with no
`try`/`except`, so a delivery exception propagates out of `run` and the
worker thread terminates: after the failure on the first queued item the
second queued item is never delivered, contradicting the claim (and §7 of
the spec, which requires the loop to continue). -/
theorem c2_delivery_failure_kills_worker :
    workerRun (failingOn "m1")
        [(EventType.MESSAGE, "m1"), (EventType.MESSAGE, "m2")]
      = ⟨[(EventType.MESSAGE, "m1")], [(EventType.MESSAGE, "m2")],
         some "delivery failed"⟩ := by decide

/-- C5: if the event kind is not in the handler's whitelist, `send_event`
returns immediately with no sink invocation and no error, whatever the
parameters and whether or not the template map has an entry for the kind
(the whitelist test precedes the template lookup). The embedding is pure:
the handler record is not modified, and the empty invocation list is the
entirety of the call's effect. -/
theorem c5_whitelist_noop (h : NotificationHandler) (et : EventType)
    (p : Params) (hw : et ∉ h.whitelist) :
    NotificationHandler.send_event h et p = .ok [] := by
  simp [NotificationHandler.send_event, hw]

/-- C5 witness: a handler whose whitelist is empty (and whose template map
is also empty) drops a MESSAGE event without error. -/
theorem c5_witness :
    NotificationHandler.send_event ⟨"Srv", [], []⟩ EventType.MESSAGE []
      = .ok [] :=
  c5_whitelist_noop ⟨"Srv", [], []⟩ EventType.MESSAGE [] (by decide)

/-- C6: if the event kind is whitelisted but the handler's template map has
no entry for it, `send_event` raises the `KeyError`-equivalent
(`templateMissing`) to its caller and performs no sink invocation. -/
theorem c6_template_missing (h : NotificationHandler) (et : EventType)
    (p : Params) (hw : et ∈ h.whitelist)
    (hf : lookupFormat h.formats et = none) :
    NotificationHandler.send_event h et p = .error SendError.templateMissing := by
  simp [NotificationHandler.send_event, hw, hf]

/-- C6 witness: the all-whitelisting handler with an empty template map. -/
theorem c6_witness :
    NotificationHandler.send_event noTemplateHandler EventType.MESSAGE []
      = .error SendError.templateMissing :=
  c6_template_missing noTemplateHandler EventType.MESSAGE [] (by decide) (by decide)

/-- C7 (amended): for every whitelisted kind whose template is present and
formats without error, `send_event` performs exactly one sink invocation,
carrying the formatted message, and the handler's name is written into the
formatting parameters under `name`, overwriting any caller-supplied value;
the specification's worked example holds, the sink receiving the
PLAYER_JOIN kind (whose `.value` is `"player_join"`) and the message
`[Box] Player \x27Ann\x27 joined the game`. (The unamended claim — exactly
one sink invocation for *every* whitelisted kind with a template present —
fails when the template itself is malformed: see the counterexample.) -/
theorem c7_one_sink_name_injected :
    (∀ (h : NotificationHandler) (et : EventType) (p : Params) (t msg : String),
      et ∈ h.whitelist →
      lookupFormat h.formats et = some t →
      safeformat t (Params.set p "name" h.name) = .ok msg →
      NotificationHandler.send_event h et p = .ok [(et, msg)]) ∧
    (∀ (p : Params) (n : String),
      Params.get? (Params.set p "name" n) "name" = some n) ∧
    NotificationHandler.send_event boxHandler EventType.PLAYER_JOIN
        [("player", "Ann")]
      = .ok [(EventType.PLAYER_JOIN, "[Box] Player \x27Ann\x27 joined the game")] ∧
    EventType.PLAYER_JOIN.value = "player_join" := by
  refine ⟨?_, ?_, by decide, rfl⟩
  · intro h et p t msg hw hf hfmt
    simp [NotificationHandler.send_event, hw, hf, hfmt]
  · intro p n
    exact params_get_set_self p "name" n

/-- C7 (counterexample to the claim as stated): a whitelisted kind with a
template present — the malformed template `\x7b` — produces zero sink
invocations: the formatting step raises and the error propagates, where
the claim promises exactly one sink invocation. -/
theorem c7_counterexample :
    NotificationHandler.send_event brokenTemplateHandler EventType.MESSAGE []
      = .error (SendError.fmt FmtError.unterminatedField) := by decide

/-- C7 witness: the general clause of the amended theorem applied to the
Box handler at the START kind. -/
theorem c7_witness :
    NotificationHandler.send_event boxHandler EventType.START []
      = .ok [(EventType.START, "[Box] Server started!")] :=
  c7_one_sink_name_injected.1 boxHandler EventType.START []
    "[{name}] Server started!" "[Box] Server started!"
    (by decide) (by decide) (by decide)

/-- C8: `add_handler` appends at the end of the ordered collection with no
deduplication, `clear` empties it, and a manager broadcast in which every
handler returns normally invokes `send_event` on each registered handler
exactly once, in registration order (the visited sequence is exactly the
registration sequence, duplicates included), with the handlers' sink
invocations concatenated in that order and no error. -/
theorem c8_manager_broadcast :
    (∀ (m : NotificationManager) (h : NotificationHandler),
      (m.add_handler h).handlers = m.handlers ++ [h]) ∧
    (∀ m : NotificationManager, (NotificationManager.clear m).handlers = []) ∧
    (∀ (hs : List NotificationHandler) (et : EventType) (p : Params),
      (∀ h ∈ hs, sendOk (NotificationHandler.send_event h et p) = true) →
      (broadcastGo hs et p).visited = hs ∧
      (broadcastGo hs et p).error = none ∧
      (broadcastGo hs et p).calls
        = (hs.map (fun h => callsOf (NotificationHandler.send_event h et p))).flatten) :=
  ⟨fun _ _ => rfl, fun _ => rfl, broadcastGo_all_ok⟩

/-- C8 witness: three registrations (the same handler registered twice, no
deduplication) are each visited exactly once, in registration order. -/
theorem c8_witness :
    (broadcastGo [handlerA, handlerB, handlerA] EventType.MESSAGE
        [("message", "hi")]).visited = [handlerA, handlerB, handlerA] ∧
    (broadcastGo [handlerA, handlerB, handlerA] EventType.MESSAGE
        [("message", "hi")]).error = none :=
  let r := c8_manager_broadcast.2.2 [handlerA, handlerB, handlerA]
    EventType.MESSAGE [("message", "hi")] (by decide)
  ⟨r.1, r.2.1⟩

/-- C9: during a manager broadcast an exception raised by one handler's
`send_event` is not caught by the manager: the handlers before the failing
one have already been visited and their sink invocations performed, the
failing handler is the last one visited, the error propagates to the
manager's caller, and the handlers after the failing one are never
visited. -/
theorem c9_error_propagates (pre : List NotificationHandler)
    (h : NotificationHandler) (post : List NotificationHandler)
    (et : EventType) (p : Params) (e : SendError)
    (hok : ∀ h2 ∈ pre, sendOk (NotificationHandler.send_event h2 et p) = true)
    (herr : NotificationHandler.send_event h et p = .error e) :
    (broadcastGo (pre ++ h :: post) et p).visited = pre ++ [h] ∧
    (broadcastGo (pre ++ h :: post) et p).error = some e ∧
    (broadcastGo (pre ++ h :: post) et p).calls
      = (pre.map (fun h2 => callsOf (NotificationHandler.send_event h2 et p))).flatten :=
  broadcastGo_error pre h post et p e hok herr

/-- C9 witness: handler A succeeds, the template-less handler raises, and
handler B — registered after it — is never visited. -/
theorem c9_witness :
    (broadcastGo [handlerA, noTemplateHandler, handlerB] EventType.MESSAGE
        [("message", "hi")]).visited = [handlerA] ++ [noTemplateHandler] ∧
    (broadcastGo [handlerA, noTemplateHandler, handlerB] EventType.MESSAGE
        [("message", "hi")]).error = some SendError.templateMissing :=
  let r := c9_error_propagates [handlerA] noTemplateHandler [handlerB]
    EventType.MESSAGE [("message", "hi")] SendError.templateMissing
    (by decide) (by decide)
  ⟨r.1, r.2.1⟩


/-- C10 (counterexample to the claim as stated): the two constructors'
default whitelists are distinct set objects — each `def` evaluated its own
`set([e for e in EventType])` — so removing MESSAGE from the whitelist
through a default-constructed `NotificationHandler` is *not* observed by a
default-constructed `QueuedNotificationHandler`, whose whitelist still
contains every kind; the claim that every default-constructed handler
references the same shared whitelist set, and that a mutation through one
is observed by all, is false across the two classes. -/
theorem c10_counterexample :
    mkDefaultNH.whitelistRef ≠ mkDefaultQNH.whitelistRef ∧
    readWhitelist
        (mutateWhitelist initStore mkDefaultNH
          (fun wl => wl.erase EventType.MESSAGE)) mkDefaultQNH
      = defaultWhitelist ∧
    EventType.MESSAGE ∉ readWhitelist
        (mutateWhitelist initStore mkDefaultNH
          (fun wl => wl.erase EventType.MESSAGE)) mkDefaultNH ∧
    EventType.MESSAGE ∈ readWhitelist
        (mutateWhitelist initStore mkDefaultNH
          (fun wl => wl.erase EventType.MESSAGE)) mkDefaultQNH := by decide

/-- C10 (amended): each constructor's default arguments are evaluated once,
at `def` time. Both classes' default `event_formats` is the single shared
`DEFAULT_EVENT_FORMATS` dict object, so a formats mutation through any
default-constructed handler of either class is observed by every
default-constructed handler of both classes; default-constructed handlers
of the same class also share that class's single default whitelist set.
But `NotificationHandler` and `QueuedNotificationHandler` hold *distinct*
default whitelist sets, so a whitelist mutation through a default handler
of one class is not observed by default handlers of the other. -/
theorem c10_shared_defaults :
    mkDefaultNH.formatsRef = mkDefaultQNH.formatsRef ∧
    mkDefaultNH.whitelistRef ≠ mkDefaultQNH.whitelistRef ∧
    (∀ f, readFormats (mutateFormats initStore mkDefaultNH f) mkDefaultQNH
      = f DEFAULT_EVENT_FORMATS) ∧
    (∀ f, readFormats (mutateFormats initStore mkDefaultQNH f) mkDefaultNH
      = f DEFAULT_EVENT_FORMATS) ∧
    (∀ g, readWhitelist (mutateWhitelist initStore mkDefaultNH g) mkDefaultNH
      = g defaultWhitelist) ∧
    (∀ g, readWhitelist (mutateWhitelist initStore mkDefaultNH g) mkDefaultQNH
      = defaultWhitelist) :=
  ⟨rfl, by decide, fun _ => rfl, fun _ => rfl, fun _ => rfl, fun _ => rfl⟩
